import Mathlib

/-!
Shallow embedding of `app/operations.py` from the calculator repository: the
operation classes (`Addition`, `Subtraction`, `Multiplication`, `Division`,
`Power`, `Root`, `Modulus`, `IntegerDivision`, `Percentage`,
`AbsoluteDifference`) and the `OperationFactory` registry.

Operands are Python `decimal.Decimal` values, modelled by `Dec`: a signed
integer coefficient times a power of ten.  Decimal arithmetic follows the
default context of Python's `decimal` module: exact results are rounded to
`PREC = 28` significant digits half-even, subnormal results are rounded at
`ETINY = Emin - PREC + 1 = -1000026`, and a result whose adjusted exponent
exceeds `EMAX = 999999` raises the trapped `decimal.Overflow` (the default
context traps `InvalidOperation`, `DivisionByZero` and `Overflow`; the
`Inexact`, `Rounded`, `Subnormal` and `Underflow` signals are untrapped and
not modelled).  Special values (NaN, infinities, signed zero) are outside
the model.

`Modulus`, `IntegerDivision`, `Power` and `Root` route their computation
through binary floats (`float(a) % float(b)`, `float(a) // float(b)`,
`pow(float(a), float(b))`, `pow(float(a), 1 / float(b))`).  Binary64
behaviour — conversion rounding, underflow to `0.0`, saturation to
infinities, the float operations and their `OverflowError` /
`ZeroDivisionError` / complex-result outcomes — is outside this embedding:
each such `execute` takes its whole float pipeline as an explicit function
parameter, typed so that it can raise any built-in float exception but
never the application's `ValidationError`.  The validation layer around the
pipeline is modelled exactly.
-/

/-- Number of decimal digits of a natural number (`nDigits 0 = 1`), written
with explicit fuel so that the kernel can evaluate it. -/
def nDigitsAux : Nat → Nat → Nat
  | 0, _ => 0
  | fuel + 1, n => if n < 10 then 1 else 1 + nDigitsAux fuel (n / 10)

def nDigits (n : Nat) : Nat := nDigitsAux (n + 1) n

/-- Round `n / 10 ^ k` to the nearest integer, ties to even
(`ROUND_HALF_EVEN`, the default rounding of Python's decimal context). -/
def rhalfEven (n k : Nat) : Nat :=
  let p := 10 ^ k
  let q := n / p
  let r := n % p
  if 2 * r < p then q
  else if p < 2 * r then q + 1
  else if q % 2 = 0 then q else q + 1

/-- A finite Python `decimal.Decimal` value: coefficient times `10 ^ e`. -/
structure Dec where
  m : Int
  e : Int
deriving DecidableEq, Repr

/-- Precision of the default decimal context (`decimal.getcontext().prec`). -/
def PREC : Nat := 28

/-- `Emax` of the default decimal context. -/
def EMAX : Int := 999999

/-- `Emin` of the default decimal context. -/
def EMIN : Int := -999999

/-- `Etiny = Emin - prec + 1`, the least exponent of a subnormal result
(`-1000026` for the default context). -/
def ETINY : Int := EMIN - (PREC : Int) + 1

/-- Rational value denoted by a `Dec`. -/
def Dec.val (d : Dec) : ℚ := (d.m : ℚ) * (10 : ℚ) ^ d.e

/-- Adjusted exponent of a non-zero `Dec` (the exponent of its leading
digit): `len(self._int) + self._exp - 1` in `_pydecimal`. -/
def Dec.adjusted (d : Dec) : Int := (nDigits d.m.natAbs : Int) + d.e - 1

/-- Least exponent the context allows for the rounded result:
`exp_min = len(self._int) + self._exp - prec` raised to `Etiny` in
`_pydecimal._fix` (the subnormal clamp). -/
def Dec.expMin (d : Dec) : Int :=
  max ((nDigits d.m.natAbs : Int) + d.e - (PREC : Int)) ETINY

/-- Coefficient rounded half-even to the exponent `expMin`. -/
def Dec.roundedCoeff (d : Dec) : Nat :=
  rhalfEven d.m.natAbs (d.expMin - d.e).toNat

/-- Errors the operation layer can raise: the application's
`ValidationError`, the built-in Python exceptions that escape `execute`,
and the trapped `decimal.Overflow` (its payload follows `_pydecimal`'s
`_raise_error(Overflow, 'above Emax')`). -/
inductive CalcError where
  | validation (msg : String)
  | valueError (msg : String)
  | zeroDivision (msg : String)
  | typeError (msg : String)
  | overflowError (msg : String)
  | decimalOverflow (msg : String)
deriving DecidableEq, Repr

/-- `decimal._fix` under the default context: a zero gets its exponent
clamped into `[Etiny, Emax]`; a non-zero coefficient is rounded half-even so
that at most `PREC` significant digits remain and the exponent is at least
`expMin`; the trapped `decimal.Overflow` is raised when the adjusted
exponent of the (rounded) result exceeds `EMAX`.  A carried coefficient
`10 ^ PREC` is kept as such rather than renormalised to `10 ^ (PREC - 1)`
with exponent `+ 1`; the two spellings denote the same value and satisfy the
same overflow condition.  (`clamp = 0`, so no folddown applies.) -/
def Dec.fix (d : Dec) : Except CalcError Dec :=
  if d.m = 0 then .ok ⟨0, min (max d.e ETINY) EMAX⟩
  else if EMAX < d.adjusted then .error (.decimalOverflow "above Emax")
  else if d.expMin ≤ d.e then .ok d
  else if d.roundedCoeff = 0 then .ok ⟨0, d.expMin⟩
  else if EMAX < (nDigits d.roundedCoeff : Int) + d.expMin - 1 then
    .error (.decimalOverflow "above Emax")
  else .ok ⟨if d.m < 0 then -(d.roundedCoeff : Int) else (d.roundedCoeff : Int), d.expMin⟩

/-- `Decimal.__add__`: align the coefficients at the smaller exponent, add
exactly, then apply the context via `_fix`. -/
def Dec.add (a b : Dec) : Except CalcError Dec :=
  let e := min a.e b.e
  Dec.fix ⟨a.m * 10 ^ (a.e - e).toNat + b.m * 10 ^ (b.e - e).toNat, e⟩

def Dec.neg (a : Dec) : Dec := ⟨-a.m, a.e⟩

/-- `Decimal.__sub__` is addition of the negation. -/
def Dec.sub (a b : Dec) : Except CalcError Dec := Dec.add a (Dec.neg b)

/-- `Decimal.__mul__`: exact product of the coefficients, then `_fix`. -/
def Dec.mul (a b : Dec) : Except CalcError Dec := Dec.fix ⟨a.m * b.m, a.e + b.e⟩

/-- `abs(Decimal)`: drop the sign, re-apply the context via `_fix`. -/
def Dec.abs (a : Dec) : Except CalcError Dec := Dec.fix ⟨(a.m.natAbs : Int), a.e⟩

/-- Trailing-zero stripping loop of `Decimal.__truediv__`
(`while exp < ideal_exp and coeff % 10 == 0`), with explicit fuel. -/
def stripZeros : Nat → Nat → Int → Int → Nat × Int
  | 0, c, e, _ => (c, e)
  | fuel + 1, c, e, ideal =>
    if e < ideal ∧ c % 10 = 0 then stripZeros fuel (c / 10) (e + 1) ideal
    else (c, e)

/-- `Decimal.__truediv__` on finite operands (the divisor is non-zero at
every call site, guarded by `validate_operands`): compute `PREC + 1`
significant digits of the quotient, nudge the last digit when the division
is inexact so the final half-even rounding is correct, strip trailing zeros
of an exact quotient down to the ideal exponent, then apply the context via
`_fix` (which can raise the trapped `decimal.Overflow`). -/
def Dec.div (a b : Dec) : Except CalcError Dec :=
  let sign : Bool := decide (a.m < 0) != decide (b.m < 0)
  let c1 := a.m.natAbs
  let c2 := b.m.natAbs
  let shift : Int := (nDigits c2 : Int) - (nDigits c1 : Int) + (PREC : Int) + 1
  let exp := a.e - b.e - shift
  let qr : Nat × Nat :=
    if 0 ≤ shift then ((c1 * 10 ^ shift.toNat) / c2, (c1 * 10 ^ shift.toNat) % c2)
    else (c1 / (c2 * 10 ^ (-shift).toNat), c1 % (c2 * 10 ^ (-shift).toNat))
  let final : Nat × Int :=
    if qr.2 ≠ 0 then (if qr.1 % 5 = 0 then qr.1 + 1 else qr.1, exp)
    else stripZeros shift.toNat qr.1 exp (a.e - b.e)
  Dec.fix ⟨if sign then -(final.1 : Int) else (final.1 : Int), final.2⟩

/-- Exceptions the binary-float pipelines can raise.  They are the built-in
Python exceptions of float conversion and float arithmetic; the
application's `ValidationError` is not among them. -/
inductive FloatError where
  | valueError (msg : String)
  | zeroDivision (msg : String)
  | overflowError (msg : String)
  | typeError (msg : String)
deriving DecidableEq, Repr

def FloatError.toCalcError : FloatError → CalcError
  | .valueError m => .valueError m
  | .zeroDivision m => .zeroDivision m
  | .overflowError m => .overflowError m
  | .typeError m => .typeError m

/-- Propagate a float-pipeline outcome out of `execute`. -/
def mapFloatErr : Except FloatError ℚ → Except CalcError ℚ
  | .ok v => .ok v
  | .error e => .error e.toCalcError

/-- Successful result of an `execute` call, if any. -/
def okPart {α : Type} : Except CalcError α → Option α
  | .ok a => some a
  | .error _ => none

/-- Error raised by an `execute` call, if any. -/
def errPart {α : Type} : Except CalcError α → Option CalcError
  | .ok _ => none
  | .error e => some e

/-- `Operation.validate_operands`: the base-class default validation is a
no-op (`pass`). -/
def Operation.validate_operands (_a _b : Dec) : Except CalcError Unit := .ok ()

/-- `Addition.execute`: validate (no-op), then `a + b`. -/
def Addition.execute (a b : Dec) : Except CalcError Dec :=
  match Operation.validate_operands a b with
  | .error e => .error e
  | .ok _ => Dec.add a b

/-- `Subtraction.execute`: validate (no-op), then `a - b`. -/
def Subtraction.execute (a b : Dec) : Except CalcError Dec :=
  match Operation.validate_operands a b with
  | .error e => .error e
  | .ok _ => Dec.sub a b

/-- `Multiplication.execute`: validate (no-op), then `a * b`. -/
def Multiplication.execute (a b : Dec) : Except CalcError Dec :=
  match Operation.validate_operands a b with
  | .error e => .error e
  | .ok _ => Dec.mul a b

/-- `Division.validate_operands`: reject a zero divisor.  Python's
`b == 0` compares the numeric value of the `Decimal`; for a finite `Dec`
that value is zero exactly when the coefficient is zero
(`Dec.val_eq_zero_iff` below). -/
def Division.validate_operands (a b : Dec) : Except CalcError Unit :=
  match Operation.validate_operands a b with
  | .error e => .error e
  | .ok _ =>
    if b.m = 0 then .error (.validation "Division by zero is not allowed")
    else .ok ()

/-- `Division.execute`: validate, then exact decimal division under the
context (rounding to 28 significant digits; trapped `decimal.Overflow`
beyond the exponent range). -/
def Division.execute (a b : Dec) : Except CalcError Dec :=
  match Division.validate_operands a b with
  | .error e => .error e
  | .ok _ => Dec.div a b

/-- `Power.validate_operands`: reject a negative exponent.  Python's `b < 0`
compares the numeric value; for a finite `Dec` the value is negative exactly
when the coefficient is (`Dec.val_neg_iff` below). -/
def Power.validate_operands (a b : Dec) : Except CalcError Unit :=
  match Operation.validate_operands a b with
  | .error e => .error e
  | .ok _ =>
    if b.m < 0 then .error (.validation "Negative exponents not supported")
    else .ok ()

/-- `Power.execute`: validate, then `Decimal(pow(float(a), float(b)))`.
The binary-float pipeline — conversion of both operands to binary64
(rounding, underflow to zero, saturation to infinity), the float power with
its `OverflowError` / `ZeroDivisionError` / complex-result outcomes, and the
conversion of the float result back to `Decimal` — is binary64 behaviour
outside this embedding: it is the explicit parameter `fpow`, applied to the
exact operand values. -/
def Power.execute (fpow : ℚ → ℚ → Except FloatError ℚ) (a b : Dec) :
    Except CalcError ℚ :=
  match Power.validate_operands a b with
  | .error e => .error e
  | .ok _ => mapFloatErr (fpow (Dec.val a) (Dec.val b))

/-- `Root.validate_operands`: reject a negative radicand, then a zero root
degree, in that order. -/
def Root.validate_operands (a b : Dec) : Except CalcError Unit :=
  match Operation.validate_operands a b with
  | .error e => .error e
  | .ok _ =>
    if a.m < 0 then .error (.validation "Cannot calculate root of negative number")
    else if b.m = 0 then .error (.validation "Zero root is undefined")
    else .ok ()

/-- `Root.execute`: validate, then `Decimal(pow(float(a), 1 / float(b)))`.
The whole binary-float pipeline — including the reciprocal `1 / float(b)` —
is the explicit parameter `froot`, applied to the exact operand values. -/
def Root.execute (froot : ℚ → ℚ → Except FloatError ℚ) (a b : Dec) :
    Except CalcError ℚ :=
  match Root.validate_operands a b with
  | .error e => .error e
  | .ok _ => mapFloatErr (froot (Dec.val a) (Dec.val b))

/-- `Modulus.validate_operands`: reject a zero divisor. -/
def Modulus.validate_operands (a b : Dec) : Except CalcError Unit :=
  match Operation.validate_operands a b with
  | .error e => .error e
  | .ok _ =>
    if b.m = 0 then .error (.validation "Division by zero is not allowed")
    else .ok ()

/-- `Modulus.execute`: validate, then `Decimal(float(a) % float(b))`.
The binary-float pipeline (operand conversion, the C-level float remainder,
conversion back) is the explicit parameter `fmod`. -/
def Modulus.execute (fmod : ℚ → ℚ → Except FloatError ℚ) (a b : Dec) :
    Except CalcError ℚ :=
  match Modulus.validate_operands a b with
  | .error e => .error e
  | .ok _ => mapFloatErr (fmod (Dec.val a) (Dec.val b))

/-- `IntegerDivision.validate_operands`: reject a zero divisor. -/
def IntegerDivision.validate_operands (a b : Dec) : Except CalcError Unit :=
  match Operation.validate_operands a b with
  | .error e => .error e
  | .ok _ =>
    if b.m = 0 then .error (.validation "Division by zero is not allowed")
    else .ok ()

/-- `IntegerDivision.execute`: validate, then
`Decimal(float(a) // float(b))`.  The binary-float pipeline is the explicit
parameter `ffdiv`. -/
def IntegerDivision.execute (ffdiv : ℚ → ℚ → Except FloatError ℚ) (a b : Dec) :
    Except CalcError ℚ :=
  match IntegerDivision.validate_operands a b with
  | .error e => .error e
  | .ok _ => mapFloatErr (ffdiv (Dec.val a) (Dec.val b))

/-- `Percentage.validate_operands`: reject a zero base value. -/
def Percentage.validate_operands (a b : Dec) : Except CalcError Unit :=
  match Operation.validate_operands a b with
  | .error e => .error e
  | .ok _ =>
    if b.m = 0 then .error (.validation "Division by zero is not allowed")
    else .ok ()

/-- `Percentage.execute`: validate, then `(a / b) * Decimal('100')`, each
step under the decimal context. -/
def Percentage.execute (a b : Dec) : Except CalcError Dec :=
  match Percentage.validate_operands a b with
  | .error e => .error e
  | .ok _ =>
    match Dec.div a b with
    | .error e => .error e
    | .ok q => Dec.mul q ⟨100, 0⟩

/-- `AbsoluteDifference.execute`: validate (the inherited no-op), then
`abs(a - b)`, each step under the decimal context. -/
def AbsoluteDifference.execute (a b : Dec) : Except CalcError Dec :=
  match Operation.validate_operands a b with
  | .error e => .error e
  | .ok _ =>
    match Dec.sub a b with
    | .error e => .error e
    | .ok d => Dec.abs d

/-- Modelled from CPython at binary64-exact operands: `float(Decimal(-2))`
and `float(Decimal('0.5'))` convert exactly, `0.5` is not integral, so
`pow(-2.0, 0.5)` returns a `complex` number and the `Decimal` constructor
raises `TypeError("conversion from complex to Decimal is not supported")`.
This pipeline records that single verified behaviour (every other input is
given an arbitrary harmless value); it instantiates the pipeline parameter
of `Power.execute` in the counterexample below. -/
def powPipelineNegHalf (x y : ℚ) : Except FloatError ℚ :=
  if x = -2 ∧ y = 1 / 2 then
    .error (.typeError "conversion from complex to Decimal is not supported")
  else .ok 0

/-- Modelled from CPython at binary64-exact operands: `float(Decimal(0)) =
0.0` and `float(Decimal(-2)) = -2.0` convert exactly, `1 / -2.0 = -0.5`
exactly, and `pow(0.0, -0.5)` raises
`ZeroDivisionError("0.0 cannot be raised to a negative power")`.  This
pipeline records that single verified behaviour (every other input is given
an arbitrary harmless value); it instantiates the pipeline parameter of
`Root.execute` in the counterexample below. -/
def rootPipelineZeroNeg (x y : ℚ) : Except FloatError ℚ :=
  if x = 0 ∧ y = -2 then
    .error (.zeroDivision "0.0 cannot be raised to a negative power")
  else .ok 0

/-- A Python class that may be handed to `OperationFactory`: one of the ten
built-in operation classes, or an arbitrary class tagged with whether it
inherits from `Operation`. -/
inductive OpClass where
  | addition
  | subtraction
  | multiplication
  | division
  | power
  | root
  | modulus
  | integer_division
  | percentage
  | absolute_difference
  | other (name : String) (isSubclassOfOperation : Bool)
deriving DecidableEq, Repr

/-- `issubclass(c, Operation)` for the classes of the model. -/
def OpClass.inheritsOperation : OpClass → Bool
  | .other _ b => b
  | _ => true

/-- Python `str.lower()` on the ASCII keys used by the factory. -/
def strLower (s : String) : String := ⟨s.data.map Char.toLower⟩

/-- `OperationFactory._operations`: the initial class-level registry. -/
def OperationFactory.operations : List (String × OpClass) :=
  [("add", .addition),
   ("subtract", .subtraction),
   ("multiply", .multiplication),
   ("divide", .division),
   ("power", .power),
   ("root", .root),
   ("modulus", .modulus),
   ("integer_division", .integer_division),
   ("percentage", .percentage),
   ("absolute_difference", .absolute_difference)]

/-- `OperationFactory.register_operation`, in state-passing form: the pair
holds the call's outcome and the registry mapping after the call.  The
`issubclass` check precedes the mutation, so a `TypeError` leaves the
mapping untouched. -/
def OperationFactory.register_operation (ops : List (String × OpClass))
    (name : String) (operation_class : OpClass) :
    Except CalcError Unit × List (String × OpClass) :=
  if ¬ operation_class.inheritsOperation then
    (.error (.typeError "Operation class must inherit from Operation"), ops)
  else
    (.ok (), (strLower name, operation_class) :: ops)

/-- `OperationFactory.create_operation`: lowercase the key, look it up, and
instantiate the class found (instances are stateless, so the class itself
stands for the instance). -/
def OperationFactory.create_operation (ops : List (String × OpClass))
    (operation_type : String) : Except CalcError OpClass :=
  match ops.lookup (strLower operation_type) with
  | some c => .ok c
  | none => .error (.valueError ("Unknown operation: " ++ operation_type))

/-! ### Basic facts about `Dec` values -/

theorem ten_zpow_pos (e : Int) : (0 : ℚ) < (10 : ℚ) ^ e :=
  zpow_pos (by norm_num) e

/-- A finite decimal is zero exactly when its coefficient is zero; this is
what `Decimal.__eq__` against `0` tests. -/
theorem Dec.val_eq_zero_iff (d : Dec) : d.val = 0 ↔ d.m = 0 := by
  rw [Dec.val, mul_eq_zero]
  simp [(ten_zpow_pos d.e).ne', Int.cast_eq_zero]

/-- A finite decimal is negative exactly when its coefficient is; this is
what `Decimal.__lt__` against `0` tests. -/
theorem Dec.val_neg_iff (d : Dec) : d.val < 0 ↔ d.m < 0 := by
  constructor
  · intro h
    by_contra hm
    push_neg at hm
    have h0 : 0 ≤ d.val := by
      rw [Dec.val]
      exact mul_nonneg (by exact_mod_cast hm) (ten_zpow_pos d.e).le
    linarith
  · intro h
    rw [Dec.val]
    exact mul_neg_of_neg_of_pos (by exact_mod_cast h) (ten_zpow_pos d.e)

theorem Dec.val_nonneg_of_m (d : Dec) (h : 0 ≤ d.m) : 0 ≤ d.val := by
  rw [Dec.val]
  exact mul_nonneg (by exact_mod_cast h) (ten_zpow_pos d.e).le

/-- The float pipelines raise built-in exceptions only, never the
application's `ValidationError`. -/
theorem mapFloatErr_ne_validation (x : Except FloatError ℚ) (msg : String) :
    mapFloatErr x ≠ .error (.validation msg) := by
  intro h
  cases x with
  | ok v => simp [mapFloatErr] at h
  | error e => cases e <;> simp [mapFloatErr, FloatError.toCalcError] at h

/-! ### Digit-count and rounding lemmas -/

theorem nDigitsAux_le (fuel : Nat) : ∀ n k : Nat, n < fuel → 1 ≤ k → n < 10 ^ k →
    nDigitsAux fuel n ≤ k := by
  induction fuel with
  | zero => intro n k h _ _; omega
  | succ fuel ih =>
    intro n k hfuel hk h
    unfold nDigitsAux
    split
    · exact hk
    · next hn =>
      push_neg at hn
      have hk2 : 2 ≤ k := by
        rcases Nat.lt_or_ge k 2 with hlt | hge
        · exfalso
          have hk1 : k = 1 := by omega
          rw [hk1, pow_one] at h
          omega
        · exact hge
      have h1 : n / 10 < 10 ^ (k - 1) := by
        rw [Nat.div_lt_iff_lt_mul (by norm_num)]
        calc n < 10 ^ k := h
          _ = 10 ^ (k - 1) * 10 := by
              rw [← pow_succ]
              congr 1
              omega
      have h2 : n / 10 < fuel := by
        have h3 : n / 10 < n := Nat.div_lt_self (by omega) (by norm_num)
        omega
      have h4 := ih (n / 10) (k - 1) h2 (by omega) h1
      omega

theorem nDigits_le_of_lt (n k : Nat) (hk : 1 ≤ k) (h : n < 10 ^ k) : nDigits n ≤ k :=
  nDigitsAux_le (n + 1) n k (Nat.lt_succ_self n) hk h

/-- Any error produced by `_fix` is the trapped `decimal.Overflow`. -/
theorem Dec.fix_error_eq (d : Dec) (e : CalcError) (h : Dec.fix d = .error e) :
    e = .decimalOverflow "above Emax" := by
  unfold Dec.fix at h
  split at h
  · simp at h
  · split at h
    · simp only [Except.error.injEq] at h
      exact h.symm
    · split at h
      · simp at h
      · split at h
        · simp at h
        · split at h
          · simp only [Except.error.injEq] at h
            exact h.symm
          · simp at h

/-- `_fix` either succeeds or raises the trapped `decimal.Overflow`. -/
theorem Dec.fix_dichotomy (d : Dec) :
    (∃ r, Dec.fix d = .ok r) ∨ Dec.fix d = .error (.decimalOverflow "above Emax") := by
  cases hfix : Dec.fix d with
  | ok r => exact Or.inl ⟨r, rfl⟩
  | error e =>
    right
    rw [Dec.fix_error_eq d e hfix]

theorem Dec.add_dichotomy (a b : Dec) :
    (∃ r, Dec.add a b = .ok r) ∨ Dec.add a b = .error (.decimalOverflow "above Emax") := by
  unfold Dec.add
  exact Dec.fix_dichotomy _

theorem Dec.sub_dichotomy (a b : Dec) :
    (∃ r, Dec.sub a b = .ok r) ∨ Dec.sub a b = .error (.decimalOverflow "above Emax") := by
  unfold Dec.sub
  exact Dec.add_dichotomy _ _

theorem Dec.mul_dichotomy (a b : Dec) :
    (∃ r, Dec.mul a b = .ok r) ∨ Dec.mul a b = .error (.decimalOverflow "above Emax") := by
  unfold Dec.mul
  exact Dec.fix_dichotomy _

theorem Dec.abs_dichotomy (a : Dec) :
    (∃ r, Dec.abs a = .ok r) ∨ Dec.abs a = .error (.decimalOverflow "above Emax") := by
  unfold Dec.abs
  exact Dec.fix_dichotomy _

theorem Dec.div_error_eq (a b : Dec) (e : CalcError) (h : Dec.div a b = .error e) :
    e = .decimalOverflow "above Emax" := by
  unfold Dec.div at h
  exact Dec.fix_error_eq _ e h

/-- `_fix` of a coefficient that is already non-negative keeps it
non-negative. -/
theorem Dec.fix_ok_m_nonneg (d r : Dec) (hm : 0 ≤ d.m) (h : Dec.fix d = .ok r) :
    0 ≤ r.m := by
  unfold Dec.fix at h
  split at h
  · simp only [Except.ok.injEq] at h
    rw [← h]
  · split at h
    · simp at h
    · split at h
      · simp only [Except.ok.injEq] at h
        rw [← h]
        exact hm
      · split at h
        · simp only [Except.ok.injEq] at h
          rw [← h]
        · split at h
          · simp at h
          · simp only [Except.ok.injEq] at h
            rw [← h]
            dsimp only
            rw [if_neg (not_lt.mpr hm)]
            exact Int.natCast_nonneg _

/-- `_fix` is the identity on a non-zero decimal whose adjusted exponent is
within `EMAX` and whose exponent is already at least `expMin`. -/
theorem Dec.fix_ok_of_bounds (d : Dec) (h0 : d.m ≠ 0) (h1 : d.adjusted ≤ EMAX)
    (h2 : d.expMin ≤ d.e) : Dec.fix d = .ok d := by
  unfold Dec.fix
  rw [if_neg h0, if_neg (not_lt.mpr h1), if_pos h2]

/-- A coefficient of at most `PREC` digits with exponent at least `ETINY`
is not rounded. -/
theorem Dec.expMin_le_of_small (d : Dec) (h1 : d.m.natAbs < 10 ^ PREC)
    (h2 : ETINY ≤ d.e) : d.expMin ≤ d.e := by
  have hd : nDigits d.m.natAbs ≤ PREC := nDigits_le_of_lt _ _ (by norm_num [PREC]) h1
  have hd2 : (nDigits d.m.natAbs : Int) ≤ (PREC : Int) := by exact_mod_cast hd
  unfold Dec.expMin
  apply max_le
  · omega
  · exact h2

/-! ### Alignment lemmas for exact decimal differences -/

theorem ten_pow_toNat_mul (e1 e : Int) (h : e ≤ e1) :
    ((10 : ℚ) ^ (e1 - e).toNat) * (10 : ℚ) ^ e = (10 : ℚ) ^ e1 := by
  rw [← zpow_natCast (10 : ℚ) (e1 - e).toNat, Int.toNat_of_nonneg (by omega),
    ← zpow_add₀ (by norm_num : (10 : ℚ) ≠ 0)]
  congr 1
  omega

/-- Value of an exact coefficient alignment at the smaller exponent. -/
theorem Dec.val_aligned (m1 m2 e1 e2 : Int) :
    Dec.val ⟨m1 * 10 ^ (e1 - min e1 e2).toNat + m2 * 10 ^ (e2 - min e1 e2).toNat, min e1 e2⟩
      = Dec.val ⟨m1, e1⟩ + Dec.val ⟨m2, e2⟩ := by
  simp only [Dec.val]
  push_cast
  rw [add_mul, mul_assoc, mul_assoc,
    ten_pow_toNat_mul e1 (min e1 e2) (min_le_left e1 e2),
    ten_pow_toNat_mul e2 (min e1 e2) (min_le_right e1 e2)]

theorem Dec.val_neg_mk (m e : Int) : Dec.val ⟨-m, e⟩ = -Dec.val ⟨m, e⟩ := by
  simp only [Dec.val]
  push_cast
  ring

theorem Dec.val_abs_mk (m e : Int) :
    Dec.val ⟨(m.natAbs : Int), e⟩ = |Dec.val ⟨m, e⟩| := by
  simp only [Dec.val]
  rw [abs_mul, abs_of_pos (ten_zpow_pos e)]
  congr 1
  push_cast [Int.cast_natAbs]
  rfl

/-- `Dec.sub` is `_fix` of the exact aligned difference. -/
theorem Dec.sub_fix_form (a b : Dec) :
    Dec.sub a b = Dec.fix ⟨a.m * 10 ^ (a.e - min a.e b.e).toNat
      - b.m * 10 ^ (b.e - min a.e b.e).toNat, min a.e b.e⟩ := by
  unfold Dec.sub Dec.add Dec.neg
  dsimp only
  have hcoef : a.m * 10 ^ (a.e - min a.e b.e).toNat + -b.m * 10 ^ (b.e - min a.e b.e).toNat
      = a.m * 10 ^ (a.e - min a.e b.e).toNat - b.m * 10 ^ (b.e - min a.e b.e).toNat := by
    ring
  rw [hcoef]

/-- Value of the exact aligned difference. -/
theorem Dec.val_sub_aligned (a b : Dec) :
    Dec.val ⟨a.m * 10 ^ (a.e - min a.e b.e).toNat
      - b.m * 10 ^ (b.e - min a.e b.e).toNat, min a.e b.e⟩
      = Dec.val a - Dec.val b := by
  have h2 : (⟨a.m * 10 ^ (a.e - min a.e b.e).toNat - b.m * 10 ^ (b.e - min a.e b.e).toNat,
      min a.e b.e⟩ : Dec)
      = ⟨a.m * 10 ^ (a.e - min a.e b.e).toNat + -b.m * 10 ^ (b.e - min a.e b.e).toNat,
        min a.e b.e⟩ := by
    congr 1
    ring
  rw [h2, Dec.val_aligned a.m (-b.m) a.e b.e, Dec.val_neg_mk, ← sub_eq_add_neg]

/-! ### Behaviour of `AbsoluteDifference.execute` -/

theorem AbsoluteDifference.execute_ok_nonneg (a b r : Dec)
    (h : AbsoluteDifference.execute a b = .ok r) : 0 ≤ Dec.val r := by
  simp only [AbsoluteDifference.execute, Operation.validate_operands] at h
  cases hsub : Dec.sub a b with
  | error e => rw [hsub] at h; simp at h
  | ok d =>
    rw [hsub] at h
    unfold Dec.abs at h
    exact Dec.val_nonneg_of_m r (Dec.fix_ok_m_nonneg _ r (Int.natCast_nonneg _) h)

theorem AbsoluteDifference.execute_dichotomy (a b : Dec) :
    (∃ r, AbsoluteDifference.execute a b = .ok r) ∨
      AbsoluteDifference.execute a b = .error (.decimalOverflow "above Emax") := by
  cases hsub : Dec.sub a b with
  | error e =>
    right
    have hsub2 := hsub
    rw [Dec.sub_fix_form] at hsub2
    have he := Dec.fix_error_eq _ e hsub2
    simp only [AbsoluteDifference.execute, Operation.validate_operands, hsub, he]
  | ok d =>
    rcases Dec.abs_dichotomy d with ⟨r, habs⟩ | habs
    · left
      exact ⟨r, by simp only [AbsoluteDifference.execute, Operation.validate_operands,
        hsub, habs]⟩
    · right
      simp only [AbsoluteDifference.execute, Operation.validate_operands, hsub, habs]

/-! ### Equation lemmas for the validation layer -/

theorem Division.execute_zero_divisor (a b : Dec) (hb : b.m = 0) :
    Division.execute a b = .error (.validation "Division by zero is not allowed") := by
  unfold Division.execute Division.validate_operands Operation.validate_operands
  rw [if_pos hb]

theorem Division.execute_nonzero_divisor (a b : Dec) (hb : ¬ b.m = 0) :
    Division.execute a b = Dec.div a b := by
  unfold Division.execute Division.validate_operands Operation.validate_operands
  rw [if_neg hb]

theorem Power.execute_neg_exponent (fpow : ℚ → ℚ → Except FloatError ℚ) (a b : Dec)
    (hb : b.m < 0) :
    Power.execute fpow a b = .error (.validation "Negative exponents not supported") := by
  unfold Power.execute Power.validate_operands Operation.validate_operands
  rw [if_pos hb]

theorem Power.execute_nonneg_exponent (fpow : ℚ → ℚ → Except FloatError ℚ) (a b : Dec)
    (hb : ¬ b.m < 0) :
    Power.execute fpow a b = mapFloatErr (fpow (Dec.val a) (Dec.val b)) := by
  unfold Power.execute Power.validate_operands Operation.validate_operands
  rw [if_neg hb]

theorem Root.execute_neg_base (froot : ℚ → ℚ → Except FloatError ℚ) (a b : Dec)
    (ha : a.m < 0) :
    Root.execute froot a b = .error (.validation "Cannot calculate root of negative number") := by
  unfold Root.execute Root.validate_operands Operation.validate_operands
  rw [if_pos ha]

theorem Root.execute_zero_degree (froot : ℚ → ℚ → Except FloatError ℚ) (a b : Dec)
    (ha : ¬ a.m < 0) (hb : b.m = 0) :
    Root.execute froot a b = .error (.validation "Zero root is undefined") := by
  unfold Root.execute Root.validate_operands Operation.validate_operands
  rw [if_neg ha, if_pos hb]

theorem Root.execute_valid_operands (froot : ℚ → ℚ → Except FloatError ℚ) (a b : Dec)
    (ha : ¬ a.m < 0) (hb : ¬ b.m = 0) :
    Root.execute froot a b = mapFloatErr (froot (Dec.val a) (Dec.val b)) := by
  unfold Root.execute Root.validate_operands Operation.validate_operands
  rw [if_neg ha, if_neg hb]

theorem Dec.fix_zero (e : Int) : Dec.fix ⟨0, e⟩ = .ok ⟨0, min (max e ETINY) EMAX⟩ := by
  unfold Dec.fix
  rw [if_pos (show ((⟨0, e⟩ : Dec).m = 0) from rfl)]

theorem Dec.abs_zero (e : Int) : Dec.abs ⟨0, e⟩ = .ok ⟨0, min (max e ETINY) EMAX⟩ := by
  show Dec.fix ⟨((0 : Int).natAbs : Int), e⟩ = .ok ⟨0, min (max e ETINY) EMAX⟩
  exact Dec.fix_zero e

/-! ### Claim theorems -/

/-- C1: for each of Division, Modulus, IntegerDivision and Percentage and
every first operand `a`, `execute(a, 0)` fails with a `ValidationError`
whose message is exactly "Division by zero is not allowed", and no result is
produced.  The statement quantifies over the float pipelines of Modulus and
IntegerDivision: the validation rejects the zero divisor before the pipeline
is consulted. -/
theorem c1_divide_by_zero_rejected :
    ∀ (fmod ffdiv : ℚ → ℚ → Except FloatError ℚ) (a b : Dec), Dec.val b = 0 →
    Division.execute a b = .error (.validation "Division by zero is not allowed") ∧
    Modulus.execute fmod a b = .error (.validation "Division by zero is not allowed") ∧
    IntegerDivision.execute ffdiv a b = .error (.validation "Division by zero is not allowed") ∧
    Percentage.execute a b = .error (.validation "Division by zero is not allowed") := by
  intro fmod ffdiv a b hb
  rw [Dec.val_eq_zero_iff] at hb
  refine ⟨?_, ?_, ?_, ?_⟩ <;>
    simp [Division.execute, Modulus.execute, IntegerDivision.execute, Percentage.execute,
      Division.validate_operands, Modulus.validate_operands, IntegerDivision.validate_operands,
      Percentage.validate_operands, Operation.validate_operands, hb]

theorem c1_divide_by_zero_rejected_witness :
    Dec.val ⟨0, 0⟩ = 0 ∧
    Division.execute ⟨7, 0⟩ ⟨0, 0⟩ = .error (.validation "Division by zero is not allowed") := by
  have h : Dec.val ⟨0, 0⟩ = 0 := by unfold Dec.val; norm_num
  exact ⟨h, (c1_divide_by_zero_rejected (fun _ _ => .ok 0) (fun _ _ => .ok 0)
    ⟨7, 0⟩ ⟨0, 0⟩ h).1⟩

/-- C2 as stated is false: `Power.execute(-2, 0.5)` has a non-negative
exponent, yet it fails.  Both operands convert to binary64 exactly, `0.5` is
not an integral float, so `pow(-2.0, 0.5)` returns a `complex` number and
the `Decimal` constructor raises `TypeError`; the pipeline stub records that
verified behaviour. -/
theorem c2_power_counterexample :
    errPart (Power.execute powPipelineNegHalf ⟨-2, 0⟩ ⟨5, -1⟩) =
      some (.typeError "conversion from complex to Decimal is not supported") ∧
    ¬ Dec.val ⟨5, -1⟩ < 0 := by
  have hx : Dec.val ⟨-2, 0⟩ = -2 := by unfold Dec.val; norm_num
  have hy : Dec.val ⟨5, -1⟩ = 1 / 2 := by unfold Dec.val; norm_num
  constructor
  · norm_num [Power.execute, Power.validate_operands, Operation.validate_operands,
      powPipelineNegHalf, mapFloatErr, FloatError.toCalcError, hx, hy, errPart]
  · rw [hy]; norm_num

/-- C2 amended: `Power.execute(a, b)` fails with the `ValidationError`
"Negative exponents not supported" exactly when `b < 0`; when `b ≥ 0` the
validation passes and the outcome — success or a built-in float exception
such as the `TypeError` at `(-2, 0.5)` or the `OverflowError` at
`(2, 10000)` — is exactly that of the binary-float pipeline
`Decimal(pow(float(a), float(b)))`, so success is not guaranteed for
`b ≥ 0`. -/
theorem c2_power_amended : ∀ (fpow : ℚ → ℚ → Except FloatError ℚ) (a b : Dec),
    (Power.execute fpow a b = .error (.validation "Negative exponents not supported")
      ↔ Dec.val b < 0) ∧
    (¬ Dec.val b < 0 →
      Power.execute fpow a b = mapFloatErr (fpow (Dec.val a) (Dec.val b))) := by
  intro fpow a b
  by_cases hb : b.m < 0
  · have hv : Dec.val b < 0 := (Dec.val_neg_iff b).mpr hb
    rw [Power.execute_neg_exponent fpow a b hb]
    exact ⟨⟨fun _ => hv, fun _ => rfl⟩, fun h => absurd hv h⟩
  · have hv : ¬ Dec.val b < 0 := fun h => hb ((Dec.val_neg_iff b).mp h)
    rw [Power.execute_nonneg_exponent fpow a b hb]
    exact ⟨⟨fun h => absurd h (mapFloatErr_ne_validation _ _), fun h => absurd h hv⟩,
      fun _ => rfl⟩

theorem c2_power_amended_witness :
    Power.execute (fun _ _ => .ok 0) ⟨2, 0⟩ ⟨3, 0⟩ = .ok 0 := by
  have h := (c2_power_amended (fun _ _ => .ok 0) ⟨2, 0⟩ ⟨3, 0⟩).2
    (by unfold Dec.val; norm_num)
  rw [h]
  rfl

/-- C3 as stated is false: `Root.execute(0, -2)` has `a ≥ 0` and `b ≠ 0`,
yet it fails.  All conversions are binary64-exact (`float(0) = 0.0`,
`1 / float(-2) = -0.5`), and `pow(0.0, -0.5)` raises `ZeroDivisionError`;
the pipeline stub records that verified behaviour. -/
theorem c3_root_counterexample :
    errPart (Root.execute rootPipelineZeroNeg ⟨0, 0⟩ ⟨-2, 0⟩) =
      some (.zeroDivision "0.0 cannot be raised to a negative power") ∧
    ¬ Dec.val ⟨0, 0⟩ < 0 ∧ Dec.val ⟨-2, 0⟩ ≠ 0 := by
  have hx : Dec.val ⟨0, 0⟩ = 0 := by unfold Dec.val; norm_num
  have hy : Dec.val ⟨-2, 0⟩ = -2 := by unfold Dec.val; norm_num
  refine ⟨?_, ?_, ?_⟩
  · norm_num [Root.execute, Root.validate_operands, Operation.validate_operands,
      rootPipelineZeroNeg, mapFloatErr, FloatError.toCalcError, hx, hy, errPart]
  · rw [hx]; norm_num
  · rw [hy]; norm_num

/-- C3 amended: `Root.execute(a, b)` fails with the `ValidationError`
"Cannot calculate root of negative number" exactly when `a < 0`; when
`a ≥ 0` it fails with "Zero root is undefined" exactly when `b = 0`; and
when `a ≥ 0` and `b ≠ 0` the validation passes and the outcome — success or
a built-in float exception such as the `ZeroDivisionError` at `(0, -2)` or
the `OverflowError` at `(2, 0.0001)` — is exactly that of the binary-float
pipeline `Decimal(pow(float(a), 1 / float(b)))`, so success is not
guaranteed there. -/
theorem c3_root_amended : ∀ (froot : ℚ → ℚ → Except FloatError ℚ) (a b : Dec),
    (Root.execute froot a b = .error (.validation "Cannot calculate root of negative number")
      ↔ Dec.val a < 0) ∧
    (¬ Dec.val a < 0 →
      (Root.execute froot a b = .error (.validation "Zero root is undefined")
        ↔ Dec.val b = 0)) ∧
    (¬ Dec.val a < 0 → Dec.val b ≠ 0 →
      Root.execute froot a b = mapFloatErr (froot (Dec.val a) (Dec.val b))) := by
  intro froot a b
  by_cases ha : a.m < 0
  · have hv : Dec.val a < 0 := (Dec.val_neg_iff a).mpr ha
    rw [Root.execute_neg_base froot a b ha]
    exact ⟨⟨fun _ => hv, fun _ => rfl⟩, fun h => absurd hv h, fun h => absurd hv h⟩
  · have hva : ¬ Dec.val a < 0 := fun h => ha ((Dec.val_neg_iff a).mp h)
    by_cases hb : b.m = 0
    · have hvb : Dec.val b = 0 := (Dec.val_eq_zero_iff b).mpr hb
      rw [Root.execute_zero_degree froot a b ha hb]
      refine ⟨⟨fun h => ?_, fun h => absurd h hva⟩,
        fun _ => ⟨fun _ => hvb, fun _ => rfl⟩, fun _ hbne => absurd hvb hbne⟩
      exfalso
      injection h with h2
      exact absurd h2 (by decide)
    · have hvb : Dec.val b ≠ 0 := fun h => hb ((Dec.val_eq_zero_iff b).mp h)
      rw [Root.execute_valid_operands froot a b ha hb]
      exact ⟨⟨fun h => absurd h (mapFloatErr_ne_validation _ _), fun h => absurd h hva⟩,
        fun _ => ⟨fun h => absurd h (mapFloatErr_ne_validation _ _), fun h => absurd h hvb⟩,
        fun _ _ => rfl⟩

theorem c3_root_amended_witness :
    Root.execute (fun _ _ => .ok 0) ⟨-9, 0⟩ ⟨2, 0⟩
      = .error (.validation "Cannot calculate root of negative number") :=
  ((c3_root_amended (fun _ _ => .ok 0) ⟨-9, 0⟩ ⟨2, 0⟩).1).mpr
    (by unfold Dec.val; norm_num)

/-- C6 as stated is false: `AbsoluteDifference.execute(1E+28, 0.5)` returns
`1E+28`, because the exact difference needs 29 significant digits and the
decimal context rounds it (half-even) to 28; the result is not `|a - b|`. -/
theorem c6_absolute_difference_counterexample :
    (okPart (AbsoluteDifference.execute ⟨1, 28⟩ ⟨5, -1⟩)).map Dec.val
      = some ((10 : ℚ) ^ 28) ∧
    (10 : ℚ) ^ 28 ≠ |Dec.val ⟨1, 28⟩ - Dec.val ⟨5, -1⟩| := by
  have hstep : okPart (AbsoluteDifference.execute ⟨1, 28⟩ ⟨5, -1⟩)
      = some ⟨10 ^ 27, 1⟩ := by decide
  have hval : Dec.val ⟨10 ^ 27, 1⟩ = (10 : ℚ) ^ 28 := by unfold Dec.val; norm_num
  constructor
  · rw [hstep, Option.map_some', hval]
  · unfold Dec.val
    norm_num [abs_of_nonneg]

/-- C6 amended: `AbsoluteDifference.execute` never raises a
`ValidationError` — it either returns a result or raises the trapped
`decimal.Overflow` (which happens, e.g., at
`a = 9.999999999999999999999999999E+999999`, `b = -a`).  Every successful
result is non-negative, and it equals `|a - b|` exactly whenever the exact
aligned difference has at most 28 significant digits and its exponent lies
within the context bounds (at least `ETINY`, adjusted exponent at most
`EMAX`), as at `execute(4.3, 5.1) = 0.8`; outside those bounds precision or
subnormal rounding can make the result differ from `|a - b|`. -/
theorem c6_absolute_difference_amended :
    (∀ a b : Dec,
      (∀ r, AbsoluteDifference.execute a b = .ok r → 0 ≤ Dec.val r) ∧
      ((∃ r, AbsoluteDifference.execute a b = .ok r) ∨
        AbsoluteDifference.execute a b = .error (.decimalOverflow "above Emax")) ∧
      ((a.m * 10 ^ (a.e - min a.e b.e).toNat
          - b.m * 10 ^ (b.e - min a.e b.e).toNat).natAbs < 10 ^ PREC →
        ETINY ≤ min a.e b.e →
        (nDigits (a.m * 10 ^ (a.e - min a.e b.e).toNat
          - b.m * 10 ^ (b.e - min a.e b.e).toNat).natAbs : Int) + min a.e b.e - 1 ≤ EMAX →
        ∃ r, AbsoluteDifference.execute a b = .ok r ∧
          Dec.val r = |Dec.val a - Dec.val b|)) ∧
    errPart (AbsoluteDifference.execute ⟨10 ^ 28 - 1, 999972⟩ ⟨-(10 ^ 28 - 1), 999972⟩)
      = some (.decimalOverflow "above Emax") := by
  constructor
  · intro a b
    refine ⟨AbsoluteDifference.execute_ok_nonneg a b,
      AbsoluteDifference.execute_dichotomy a b, ?_⟩
    intro h1 h2 h3
    by_cases hM : a.m * 10 ^ (a.e - min a.e b.e).toNat
        - b.m * 10 ^ (b.e - min a.e b.e).toNat = 0
    · have hzero : Dec.val a - Dec.val b = 0 := by
        rw [← Dec.val_sub_aligned a b, hM]
        unfold Dec.val
        norm_num
      have hsub : Dec.sub a b = .ok ⟨0, min (max (min a.e b.e) ETINY) EMAX⟩ := by
        rw [Dec.sub_fix_form, hM]
        exact Dec.fix_zero _
      refine ⟨⟨0, min (max (min (max (min a.e b.e) ETINY) EMAX) ETINY) EMAX⟩, ?_, ?_⟩
      · simp only [AbsoluteDifference.execute, Operation.validate_operands, hsub]
        exact Dec.abs_zero _
      · rw [hzero, abs_zero]
        unfold Dec.val
        norm_num
    · have hexp : (⟨a.m * 10 ^ (a.e - min a.e b.e).toNat
          - b.m * 10 ^ (b.e - min a.e b.e).toNat, min a.e b.e⟩ : Dec).expMin
          ≤ min a.e b.e :=
        Dec.expMin_le_of_small _ h1 h2
      have hsub : Dec.sub a b = .ok ⟨a.m * 10 ^ (a.e - min a.e b.e).toNat
          - b.m * 10 ^ (b.e - min a.e b.e).toNat, min a.e b.e⟩ := by
        rw [Dec.sub_fix_form]
        exact Dec.fix_ok_of_bounds _ hM h3 hexp
      have habs : Dec.abs ⟨a.m * 10 ^ (a.e - min a.e b.e).toNat
          - b.m * 10 ^ (b.e - min a.e b.e).toNat, min a.e b.e⟩
          = .ok ⟨((a.m * 10 ^ (a.e - min a.e b.e).toNat
            - b.m * 10 ^ (b.e - min a.e b.e).toNat).natAbs : Int), min a.e b.e⟩ := by
        unfold Dec.abs
        apply Dec.fix_ok_of_bounds
        · simpa [Int.natCast_eq_zero] using hM
        · simpa [Dec.adjusted, Int.natAbs_ofNat, Int.natAbs_abs] using h3
        · apply Dec.expMin_le_of_small
          · simpa [Int.natAbs_ofNat, Int.natAbs_abs] using h1
          · exact h2
      refine ⟨⟨((a.m * 10 ^ (a.e - min a.e b.e).toNat
          - b.m * 10 ^ (b.e - min a.e b.e).toNat).natAbs : Int), min a.e b.e⟩, ?_, ?_⟩
      · simp only [AbsoluteDifference.execute, Operation.validate_operands, hsub]
        exact habs
      · rw [Dec.val_abs_mk, Dec.val_sub_aligned]
  · decide

theorem c6_absolute_difference_amended_witness :
    ∃ r : Dec, AbsoluteDifference.execute ⟨43, -1⟩ ⟨51, -1⟩ = .ok r ∧
      Dec.val r = |Dec.val ⟨43, -1⟩ - Dec.val ⟨51, -1⟩| := by
  obtain ⟨r, h1, h2⟩ := (c6_absolute_difference_amended.1 ⟨43, -1⟩ ⟨51, -1⟩).2.2
    (by decide) (by decide) (by decide)
  exact ⟨r, h1, h2⟩

/-- C7 as stated is false: `Division.execute(1, 3)` succeeds, but the
returned value is the 28-significant-digit rounding
`0.3333333333333333333333333333`, not the mathematical quotient `1/3`. -/
theorem c7_division_counterexample :
    (okPart (Division.execute ⟨1, 0⟩ ⟨3, 0⟩)).map Dec.val
      ≠ some (Dec.val ⟨1, 0⟩ / Dec.val ⟨3, 0⟩) ∧
    (okPart (Division.execute ⟨1, 0⟩ ⟨3, 0⟩)).map Dec.val ≠ none := by
  have hstep : okPart (Division.execute ⟨1, 0⟩ ⟨3, 0⟩)
      = some ⟨3333333333333333333333333333, -28⟩ := by decide
  have hval : Dec.val ⟨3333333333333333333333333333, -28⟩
      = (3333333333333333333333333333 : ℚ) / 10 ^ 28 := by unfold Dec.val; norm_num
  have h2 : Dec.val ⟨1, 0⟩ = 1 := by unfold Dec.val; norm_num
  have h3 : Dec.val ⟨3, 0⟩ = 3 := by unfold Dec.val; norm_num
  rw [hstep, Option.map_some', hval, h2, h3]
  constructor
  · intro h
    rw [Option.some_inj] at h
    norm_num at h
  · intro h
    exact Option.noConfusion h

/-- C7 amended: `Division.execute(a, b)` fails with the `ValidationError`
"Division by zero is not allowed" exactly when `b = 0`; for `b ≠ 0` the
division is performed under the decimal context, so the value returned is
the exact quotient rounded to 28 significant digits — `execute(1, 3)`
returns `0.3333333333333333333333333333 ≠ 1/3` — and a quotient whose
adjusted exponent exceeds `EMAX = 999999` raises the trapped
`decimal.Overflow` instead of producing a result, as at
`execute(1E+999999, 1E-999999)`. -/
theorem c7_division_amended :
    (∀ a b : Dec,
      Division.execute a b = .error (.validation "Division by zero is not allowed")
        ↔ Dec.val b = 0) ∧
    (okPart (Division.execute ⟨1, 0⟩ ⟨3, 0⟩)).map Dec.val
      = some ((3333333333333333333333333333 : ℚ) / 10 ^ 28) ∧
    (3333333333333333333333333333 : ℚ) / 10 ^ 28 ≠ Dec.val ⟨1, 0⟩ / Dec.val ⟨3, 0⟩ ∧
    errPart (Division.execute ⟨1, 999999⟩ ⟨1, -999999⟩)
      = some (.decimalOverflow "above Emax") := by
  refine ⟨?_, ?_, ?_, by decide⟩
  · intro a b
    by_cases hb : b.m = 0
    · have hv : Dec.val b = 0 := (Dec.val_eq_zero_iff b).mpr hb
      rw [Division.execute_zero_divisor a b hb]
      exact ⟨fun _ => hv, fun _ => rfl⟩
    · have hv : Dec.val b ≠ 0 := fun h => hb ((Dec.val_eq_zero_iff b).mp h)
      rw [Division.execute_nonzero_divisor a b hb]
      constructor
      · intro h
        exfalso
        cases hdiv : Dec.div a b with
        | ok r => rw [hdiv] at h; simp at h
        | error e =>
          rw [hdiv] at h
          have he := Dec.div_error_eq a b e hdiv
          injection h with h2
          rw [he] at h2
          exact absurd h2 (by decide)
      · intro h
        exact absurd h hv
  · have hstep : okPart (Division.execute ⟨1, 0⟩ ⟨3, 0⟩)
        = some ⟨3333333333333333333333333333, -28⟩ := by decide
    have hval : Dec.val ⟨3333333333333333333333333333, -28⟩
        = (3333333333333333333333333333 : ℚ) / 10 ^ 28 := by unfold Dec.val; norm_num
    rw [hstep, Option.map_some', hval]
  · have h2 : Dec.val ⟨1, 0⟩ = 1 := by unfold Dec.val; norm_num
    have h3 : Dec.val ⟨3, 0⟩ = 3 := by unfold Dec.val; norm_num
    rw [h2, h3]
    norm_num

theorem c7_division_amended_witness :
    Division.execute ⟨7, 0⟩ ⟨0, 0⟩
      = .error (.validation "Division by zero is not allowed") :=
  (c7_division_amended.1 ⟨7, 0⟩ ⟨0, 0⟩).mpr (by unfold Dec.val; norm_num)

/-- C8 as stated is false: `Multiplication.execute(1E+999999, 1E+999999)`
raises the trapped `decimal.Overflow`, because the product's adjusted
exponent `1999998` exceeds the context's `Emax = 999999`. -/
theorem c8_unvalidated_counterexample :
    errPart (Multiplication.execute ⟨1, 999999⟩ ⟨1, 999999⟩)
      = some (.decimalOverflow "above Emax") := by
  decide

/-- C8 amended: Addition, Subtraction, Multiplication and
AbsoluteDifference have no validation rules and never raise a
`ValidationError`: for all operands — zero and negative ones included —
each either returns a result or raises the trapped `decimal.Overflow` when
the result's adjusted exponent exceeds `EMAX = 999999` (which
`Multiplication.execute(1E+999999, 1E+999999)` does). -/
theorem c8_unvalidated_amended :
    (∀ a b : Dec,
      ((∃ r, Addition.execute a b = .ok r) ∨
        Addition.execute a b = .error (.decimalOverflow "above Emax")) ∧
      ((∃ r, Subtraction.execute a b = .ok r) ∨
        Subtraction.execute a b = .error (.decimalOverflow "above Emax")) ∧
      ((∃ r, Multiplication.execute a b = .ok r) ∨
        Multiplication.execute a b = .error (.decimalOverflow "above Emax")) ∧
      ((∃ r, AbsoluteDifference.execute a b = .ok r) ∨
        AbsoluteDifference.execute a b = .error (.decimalOverflow "above Emax"))) ∧
    okPart (Addition.execute ⟨2, 0⟩ ⟨3, 0⟩) = some ⟨5, 0⟩ ∧
    okPart (Multiplication.execute ⟨-2, 0⟩ ⟨0, 0⟩) = some ⟨0, 0⟩ := by
  refine ⟨fun a b => ⟨?_, ?_, ?_, ?_⟩, by decide, by decide⟩
  · simp only [Addition.execute, Operation.validate_operands]
    exact Dec.add_dichotomy a b
  · simp only [Subtraction.execute, Operation.validate_operands]
    exact Dec.sub_dichotomy a b
  · simp only [Multiplication.execute, Operation.validate_operands]
    exact Dec.mul_dichotomy a b
  · exact AbsoluteDifference.execute_dichotomy a b

/-- C9: registry lookup is case-insensitive.  `create_operation` lowercases
the key before the lookup, so two keys with the same lowercasing resolve to
the same class; `create("ADD")` and `create("add")` both yield the Addition
class; and `register_operation` lowercases the key before inserting it. -/
theorem c9_registry_case_insensitive :
    (∀ (ops : List (String × OpClass)) (s k : String), strLower s = strLower k →
      okPart (OperationFactory.create_operation ops s)
        = okPart (OperationFactory.create_operation ops k)) ∧
    okPart (OperationFactory.create_operation OperationFactory.operations "ADD")
      = some .addition ∧
    okPart (OperationFactory.create_operation OperationFactory.operations "add")
      = some .addition ∧
    (∀ (ops : List (String × OpClass)) (n : String) (c : OpClass),
      c.inheritsOperation = true →
      (OperationFactory.register_operation ops n c).2 = (strLower n, c) :: ops) := by
  refine ⟨?_, by decide, by decide, ?_⟩
  · intro ops s k h
    unfold OperationFactory.create_operation
    rw [h]
    cases ops.lookup (strLower k) <;> rfl
  · intro ops n c h
    unfold OperationFactory.register_operation
    rw [if_neg (by simp [h])]

theorem c9_registry_case_insensitive_witness :
    okPart (OperationFactory.create_operation OperationFactory.operations "ADD")
      = okPart (OperationFactory.create_operation OperationFactory.operations "add") :=
  c9_registry_case_insensitive.1 OperationFactory.operations "ADD" "add" (by decide)

/-- C10: a failed registration is atomic.  When the class does not inherit
from `Operation`, `register_operation` raises the `TypeError` before
touching the mapping, so the registry is unchanged and every later
`create_operation` behaves exactly as before the failed call. -/
theorem c10_registration_atomic :
    ∀ (ops : List (String × OpClass)) (n : String) (c : OpClass),
    c.inheritsOperation = false →
    OperationFactory.register_operation ops n c
      = (.error (.typeError "Operation class must inherit from Operation"), ops) ∧
    ∀ q, OperationFactory.create_operation (OperationFactory.register_operation ops n c).2 q
      = OperationFactory.create_operation ops q := by
  intro ops n c h
  have hreg : OperationFactory.register_operation ops n c
      = (.error (.typeError "Operation class must inherit from Operation"), ops) := by
    unfold OperationFactory.register_operation
    rw [if_pos (by simp [h])]
  exact ⟨hreg, fun q => by rw [hreg]⟩

theorem c10_registration_atomic_witness :
    OperationFactory.register_operation OperationFactory.operations "custom"
        (.other "NotAnOperationClass" false)
      = (.error (.typeError "Operation class must inherit from Operation"),
          OperationFactory.operations) ∧
    OperationFactory.create_operation
        (OperationFactory.register_operation OperationFactory.operations "custom"
          (.other "NotAnOperationClass" false)).2 "add"
      = OperationFactory.create_operation OperationFactory.operations "add" := by
  obtain ⟨h1, h2⟩ := c10_registration_atomic OperationFactory.operations "custom"
    (.other "NotAnOperationClass" false) (by decide)
  exact ⟨h1, h2 "add"⟩
